import Mathlib

/-!
Verification development for the cadastro-nev employee-registration
application (src/app.py).  The definitions below are a shallow embedding of
the validation utilities, the sequential-identifier generator, the wizard
finalize pipeline, the access-control decorators, the CSV exporters and the
user-deletion handler.  Strings are modelled by Lean strings, Python digit
filtering (str.isdigit / the regex class of decimal digits) by
Char.isDigit, DB tables by lists of rows, and the only impure failure point
of each handler (the database commit) by an explicit Option String
exception parameter.  Text normalisations that no claim refers to
(sanitize_input, str.title, str.lower) are not modelled; the fields they
produce are stored unnormalised.
-/

/-- Digits of a string, in order: models `''.join(filter(str.isdigit, str(cpf)))`
and `re.sub(r'\D', '', str(tel))` for decimal-digit characters. -/
def pyDigits (s : String) : List Char :=
  s.data.filter Char.isDigit

/-- Numeric value of a decimal digit character, models Python `int(c)`. -/
def digitVal (c : Char) : Nat :=
  c.toNat - 48

/-- One check-digit test of `validar_cpf` (src/app.py:133-137):
`soma = sum(int(cpf[num]) * ((i + 1) - num) for num in range(i))`,
`digito = (soma * 10 % 11) % 10`, compared with `int(cpf[i])`. -/
def cpfCheckDigit (ds : List Char) (i : Nat) : Bool :=
  let soma := ((List.range i).map (fun num => digitVal (ds.getD num '0') * ((i + 1) - num))).sum
  ((soma * 10 % 11) % 10) == digitVal (ds.getD i '0')

/-- Model of `validar_cpf` (src/app.py:128-138): strip non-digits, require exactly 11
digits that are not all identical (`cpf == cpf[0] * 11`), then check the two
check digits at positions 9 and 10. -/
def validar_cpf (s : String) : Bool :=
  let cpf := pyDigits s
  if cpf.length ≠ 11 then false
  else if cpf = List.replicate 11 (cpf.headD '0') then false
  else cpfCheckDigit cpf 9 && cpfCheckDigit cpf 10

/-- The character list of `f'{c[:3]}.{c[3:6]}.{c[6:9]}-{c[9:]}'`. -/
def fmtCpfL (c : List Char) : List Char :=
  c.take 3 ++ '.' :: ((c.drop 3).take 3 ++ '.' :: ((c.drop 6).take 3 ++ '-' :: c.drop 9))

/-- Model of `formatar_cpf` (src/app.py:140-143): strip non-digits; format as
XXX.XXX.XXX-XX when there are exactly 11 digits, otherwise return the
stripped digit string. -/
def formatar_cpf (s : String) : String :=
  let c := pyDigits s
  if c.length = 11 then String.mk (fmtCpfL c) else String.mk c

/-- Model of `formatar_telefone` (src/app.py:145-154).  The argument is an
`Option String` so that the Python `None` input is representable; `if not
tel` is true exactly for `None` and the empty string. -/
def formatar_telefone (tel : Option String) : String :=
  match tel with
  | none => ""
  | some s =>
    if s = "" then ""
    else
      let t := pyDigits s
      if t.length = 11 then
        String.mk ('(' :: t.take 2 ++ ')' :: ' ' :: ((t.drop 2).take 5 ++ '-' :: t.drop 7))
      else if t.length = 10 then
        String.mk ('(' :: t.take 2 ++ ')' :: ' ' :: ((t.drop 2).take 4 ++ '-' :: t.drop 6))
      else s

/-- Python `int(s)` restricted to nonempty strings of decimal digits (the
domain the matrícula suffixes live in); any other string raises, modelled
as `none`. -/
def parseDigits (s : String) : Option Nat :=
  if s.data ≠ [] ∧ s.data.all Char.isDigit then
    some (s.data.foldl (fun acc c => acc * 10 + digitVal c) 0)
  else none

/-- Python `f'{num:04d}'` for a natural number: zero-pad to width 4. -/
def pad4 (n : Nat) : String :=
  let s := toString n
  if s.length < 4 then String.mk (List.replicate (4 - s.length) '0') ++ s else s

/-- Python `f'{n:02d}'` (also the zero padding of strftime %d %m %H %M). -/
def pad2 (n : Nat) : String :=
  if n < 10 then "0" ++ toString n else toString n

/-- Python `str.strip()`: drop leading and trailing whitespace (modelled on
the usual whitespace characters). -/
def pyStrip (s : String) : String :=
  String.mk (((s.data.dropWhile Char.isWhitespace).reverse.dropWhile Char.isWhitespace).reverse)

/-- Python `str.split(sep)` for a one-character separator: the groups
between occurrences of the separator, empty groups kept. -/
def splitOnChar (sep : Char) (l : List Char) : List (List Char) :=
  l.foldr (fun c acc =>
    match acc with
    | [] => if c = sep then [[], []] else [[c]]
    | g :: rest => if c = sep then [] :: g :: rest else (c :: g) :: rest) [[]]

/-- A Python `datetime.date`. -/
structure PyDate where
  year : Nat
  month : Nat
  day : Nat
deriving DecidableEq, Repr

/-- A Python `datetime.time` restricted to the fields strftime %H:%M reads. -/
structure PyTime where
  hour : Nat
  minute : Nat
deriving DecidableEq, Repr

/-- Day count of a month in the Gregorian calendar (Python `calendar`). -/
def daysInMonth (y m : Nat) : Nat :=
  if m = 2 then (if (y % 4 = 0 ∧ y % 100 ≠ 0) ∨ y % 400 = 0 then 29 else 28)
  else if m = 4 ∨ m = 6 ∨ m = 9 ∨ m = 11 then 30
  else 31

/-- Model of `datetime.strptime(s, '%Y-%m-%d').date()`: three dash-separated decimal
groups forming a calendar-valid date; a `ValueError` is modelled as `none`. -/
def parseDateYMD (s : String) : Option PyDate :=
  match (splitOnChar '-' s.data).map String.mk with
  | [ys, ms, dstr] =>
    match parseDigits ys, parseDigits ms, parseDigits dstr with
    | some y, some m, some d =>
      if 1 ≤ m ∧ m ≤ 12 ∧ 1 ≤ d ∧ d ≤ daysInMonth y m then some ⟨y, m, d⟩ else none
    | _, _, _ => none
  | _ => none

/-- A row of the `colaboradores` table, restricted to the columns the claims
refer to (identification, contact, vínculo, dates, status and audit
reference); the remaining optional columns play no role in any claim. -/
structure Colab where
  id : Nat
  matricula : Option String
  cpf : String
  status : String
  nome_completo : String
  email_institucional : String
  celular : String
  tipo_vinculo : String
  departamento : String
  data_ingresso : Option PyDate
  data_nascimento : Option PyDate
  cadastrado_por : Nat
deriving DecidableEq, Repr

/-- The `LIKE 'NEV{ano}%'` filter of `gerar_matricula` on a row. -/
def matchesAno (ano : Nat) (c : Colab) : Bool :=
  match c.matricula with
  | some m => ("NEV" ++ toString ano).data.isPrefixOf m.data
  | none => false

/-- Model of `order_by(Colaborador.id.desc()).first()`: the row with the greatest
internal id (ids are the primary key, hence distinct). -/
def pickNewer (acc : Option Colab) (c : Colab) : Option Colab :=
  match acc with
  | none => some c
  | some a => if a.id < c.id then some c else some a

/-- The `ultimo` query of `gerar_matricula` (src/app.py:160-162). -/
def ultimoMatch (ano : Nat) (db : List Colab) : Option Colab :=
  (db.filter (matchesAno ano)).foldl pickNewer none

/-- Model of `gerar_matricula` (src/app.py:156-166).  `ano` is `datetime.now().year`,
`ts` is `int(datetime.now().timestamp())`, and `queryOk = false` models a
raised exception in the query itself; any exception (also the `int` parse
failure) falls back to the timestamp-based identifier. -/
def gerarMatricula (ano : Nat) (db : List Colab) (queryOk : Bool) (ts : Nat) : String :=
  if queryOk then
    match ultimoMatch ano db with
    | none => "NEV" ++ toString ano ++ pad4 1
    | some u =>
      match u.matricula with
      | none => "NEV" ++ toString ano ++ pad4 1
      | some m =>
        if m = "" then "NEV" ++ toString ano ++ pad4 1
        else
          match parseDigits (m.drop 7) with
          | some n => "NEV" ++ toString ano ++ pad4 (n + 1)
          | none => "NEV" ++ toString ano ++ pad4 (ts % 1000)
  else "NEV" ++ toString ano ++ pad4 (ts % 1000)

/-- Step 1 of the wizard (src/app.py:797-802). -/
structure Passo1 where
  nome_completo : String
  nome_social : String
  cpf : String
  rg : String
  data_nascimento : String
deriving DecidableEq, Repr

/-- Step 2 of the wizard (src/app.py:804-813). -/
structure Passo2 where
  email_institucional : String
  celular : String
  whatsapp : Bool
  cep : String
  endereco : String
  numero : String
  bairro : String
  cidade : String
  estado : String
deriving DecidableEq, Repr

/-- Step 3 of the wizard (src/app.py:815-820). -/
structure Passo3 where
  tipo_vinculo : String
  departamento : String
  lotacao : String
  data_ingresso : String
  dias_presenciais : String
deriving DecidableEq, Repr

/-- Step 4 of the wizard (src/app.py:822-826). -/
structure Passo4 where
  atende_imprensa : Bool
  tipos_imprensa : String
  assuntos_especializacao : String
  disponibilidade_contato : String
deriving DecidableEq, Repr

/-- Step 5 of the wizard (src/app.py:828-832). -/
structure Passo5 where
  curriculo_lattes : String
  orcid : String
  linkedin : String
  observacoes : String
deriving DecidableEq, Repr

/-- The five staged session entries `colaborador_passo_1 .. _5`; a missing
key (`session.get(..., {})`) is `none`. -/
structure Session where
  passo1 : Option Passo1
  passo2 : Option Passo2
  passo3 : Option Passo3
  passo4 : Option Passo4
  passo5 : Option Passo5
deriving DecidableEq, Repr

/-- The session after `session.pop(f'colaborador_passo_{p}', None)` for all
five steps (src/app.py:965-966). -/
def clearedSession : Session :=
  ⟨none, none, none, none, none⟩

/-- The merged candidate record `dados_finais` with its `.get(field, '')`
defaults; the per-step key sets are disjoint, so the dict union is a
field-wise projection. -/
structure FormData where
  nome_completo : String
  nome_social : String
  cpf : String
  rg : String
  data_nascimento : String
  email_institucional : String
  celular : String
  whatsapp : Bool
  cep : String
  endereco : String
  numero : String
  bairro : String
  cidade : String
  estado : String
  tipo_vinculo : String
  departamento : String
  lotacao : String
  data_ingresso : String
  dias_presenciais : String
  atende_imprensa : Bool
  tipos_imprensa : String
  assuntos_especializacao : String
  disponibilidade_contato : String
  curriculo_lattes : String
  orcid : String
  linkedin : String
  observacoes : String
deriving DecidableEq, Repr

/-- Merge `dados_finais.update(session.get(...))` of the five steps, for
p = 1..5 (src/app.py:843-848). -/
def mergeSession (s : Session) : FormData where
  nome_completo := match s.passo1 with | some p => p.nome_completo | none => ""
  nome_social := match s.passo1 with | some p => p.nome_social | none => ""
  cpf := match s.passo1 with | some p => p.cpf | none => ""
  rg := match s.passo1 with | some p => p.rg | none => ""
  data_nascimento := match s.passo1 with | some p => p.data_nascimento | none => ""
  email_institucional := match s.passo2 with | some p => p.email_institucional | none => ""
  celular := match s.passo2 with | some p => p.celular | none => ""
  whatsapp := match s.passo2 with | some p => p.whatsapp | none => false
  cep := match s.passo2 with | some p => p.cep | none => ""
  endereco := match s.passo2 with | some p => p.endereco | none => ""
  numero := match s.passo2 with | some p => p.numero | none => ""
  bairro := match s.passo2 with | some p => p.bairro | none => ""
  cidade := match s.passo2 with | some p => p.cidade | none => ""
  estado := match s.passo2 with | some p => p.estado | none => ""
  tipo_vinculo := match s.passo3 with | some p => p.tipo_vinculo | none => ""
  departamento := match s.passo3 with | some p => p.departamento | none => ""
  lotacao := match s.passo3 with | some p => p.lotacao | none => ""
  data_ingresso := match s.passo3 with | some p => p.data_ingresso | none => ""
  dias_presenciais := match s.passo3 with | some p => p.dias_presenciais | none => ""
  atende_imprensa := match s.passo4 with | some p => p.atende_imprensa | none => false
  tipos_imprensa := match s.passo4 with | some p => p.tipos_imprensa | none => ""
  assuntos_especializacao := match s.passo4 with | some p => p.assuntos_especializacao | none => ""
  disponibilidade_contato := match s.passo4 with | some p => p.disponibilidade_contato | none => ""
  curriculo_lattes := match s.passo5 with | some p => p.curriculo_lattes | none => ""
  orcid := match s.passo5 with | some p => p.orcid | none => ""
  linkedin := match s.passo5 with | some p => p.linkedin | none => ""
  observacoes := match s.passo5 with | some p => p.observacoes | none => ""

/-- The JSON response of the AJAX finalize action: an error with its HTTP
status code and message, or success carrying the id of the new row (the
success message and redirect URL are built from that row). -/
inductive FinalizeResp where
  | err (code : Nat) (message : String)
  | ok (colaboradorId : Nat)
deriving DecidableEq, Repr

/-- Response, resulting `colaboradores` table and resulting session of one
finalize request. -/
structure FinalizeOutcome where
  resp : FinalizeResp
  db : List Colab
  sess : Session
deriving DecidableEq, Repr

/-- The `acao == 'finalizar_cadastro'` branch of `novo_colaborador`
(src/app.py:842-980).  `exc` models an exception raised by the database
insert/commit (`some` carries `str(e)`); `ano`, `ts` and `queryOk` feed
`gerar_matricula`, `uid` is `current_user.id`, `newId` the primary key the
database assigns.  On the exception path the transaction is rolled back
(the input table is returned) and the staged session entries are not
popped. -/
def finalizar_cadastro (sess : Session) (db : List Colab) (exc : Option String)
    (ano ts : Nat) (queryOk : Bool) (uid newId : Nat) : FinalizeOutcome :=
  let d := mergeSession sess
  let cpf := formatar_cpf (pyStrip d.cpf)
  if ¬ validar_cpf cpf then
    ⟨.err 400 ("CPF inválido. Por favor, verifique o número."), db, sess⟩
  else if db.any (fun c => c.cpf == cpf) then
    ⟨.err 400 ("Erro: Este CPF já está cadastrado no sistema."), db, sess⟩
  else if d.nome_completo = "" then
    ⟨.err 400 ("Nome completo é obrigatório."), db, sess⟩
  else if d.email_institucional = "" then
    ⟨.err 400 ("Email institucional é obrigatório."), db, sess⟩
  else if d.celular = "" then
    ⟨.err 400 ("Celular é obrigatório."), db, sess⟩
  else if d.tipo_vinculo = "" then
    ⟨.err 400 ("Tipo de vínculo é obrigatório."), db, sess⟩
  else if d.data_ingresso = "" then
    ⟨.err 400 ("Data de ingresso é obrigatória."), db, sess⟩
  else
    match parseDateYMD d.data_ingresso with
    | none => ⟨.err 400 ("Data de ingresso inválida."), db, sess⟩
    | some di =>
      match exc with
      | some e => ⟨.err 500 ("Erro ao processar cadastro: " ++ e), db, sess⟩
      | none =>
        let novo : Colab :=
          { id := newId
            matricula := some (gerarMatricula ano db queryOk ts)
            cpf := cpf
            status := "Ativo"
            nome_completo := d.nome_completo
            email_institucional := d.email_institucional
            celular := formatar_telefone (some d.celular)
            tipo_vinculo := d.tipo_vinculo
            departamento := d.departamento
            data_ingresso := some di
            data_nascimento := if d.data_nascimento = "" then none else parseDateYMD d.data_nascimento
            cadastrado_por := uid }
        ⟨.ok newId, db ++ [novo], clearedSession⟩

/-- True exactly when the finalize request passes every validation and
reaches the insert phase (the guard chain of src/app.py:850-936). -/
def validationsOk (sess : Session) (db : List Colab) : Bool :=
  let d := mergeSession sess
  let cpf := formatar_cpf (pyStrip d.cpf)
  validar_cpf cpf && !(db.any (fun c => c.cpf == cpf)) &&
  !(d.nome_completo == "") && !(d.email_institucional == "") &&
  !(d.celular == "") && !(d.tipo_vinculo == "") && !(d.data_ingresso == "") &&
  (parseDateYMD d.data_ingresso).isSome

/-- Response of the non-AJAX fallback form handler: a flashed error with the
form re-rendered, or a redirect to the new row. -/
inductive FallbackResp where
  | formError (message : String)
  | created (colaboradorId : Nat)
deriving DecidableEq, Repr

/-- The non-AJAX fallback branch of `novo_colaborador`
(src/app.py:983-1071); same parameters as `finalizar_cadastro`, with the
form fields given directly. -/
def cadastro_fallback (d : FormData) (db : List Colab) (exc : Option String)
    (ano ts : Nat) (queryOk : Bool) (uid newId : Nat) : FallbackResp × List Colab :=
  if d.tipo_vinculo = "" then
    (.formError ("O campo \"Tipo de Vínculo\" é obrigatório."), db)
  else
    let cpf := formatar_cpf (pyStrip d.cpf)
    if ¬ validar_cpf cpf then
      (.formError ("CPF inválido. Por favor, verifique o número."), db)
    else if db.any (fun c => c.cpf == cpf) then
      (.formError ("Erro: Este CPF já está cadastrado no sistema."), db)
    else if d.data_ingresso = "" then
      (.formError ("O campo \"Data de Ingresso\" é obrigatório."), db)
    else
      match parseDateYMD d.data_ingresso with
      | none => (.formError ("Data de ingresso inválida."), db)
      | some di =>
        match exc with
        | some e => (.formError ("Erro ao processar cadastro: " ++ e), db)
        | none =>
          let novo : Colab :=
            { id := newId
              matricula := some (gerarMatricula ano db queryOk ts)
              cpf := cpf
              status := "Ativo"
              nome_completo := d.nome_completo
              email_institucional := d.email_institucional
              celular := formatar_telefone (some d.celular)
              tipo_vinculo := d.tipo_vinculo
              departamento := d.departamento
              data_ingresso := some di
              data_nascimento := if d.data_nascimento = "" then none else parseDateYMD d.data_nascimento
              cadastrado_por := uid }
          (.created newId, db ++ [novo])

/-- The CPF phase of `editar_colaborador` (src/app.py:1099-1108): the value
the `cpf` column holds after the phase, or the flashed rejection. -/
def editar_cpf (cpf_form : String) (colab : Colab) (db : List Colab) : Except String String :=
  let c := pyStrip cpf_form
  if c = "" then .ok colab.cpf
  else
    let novo := formatar_cpf c
    if novo = colab.cpf then .ok colab.cpf
    else if !(validar_cpf novo) || db.any (fun o => o.cpf == novo && o.id != colab.id) then
      .error ("CPF inválido ou já em uso.")
    else .ok novo

/-- The authenticated principal as the decorators see it: its `nivel_acesso`
role string. -/
structure Principal where
  nivel_acesso : String
deriving DecidableEq, Repr

/-- Result of an access-control-gated request: either the wrapped handler's
result, or a flashed redirect issued by the gate itself. -/
inductive GateResult (ρ : Type) where
  | denied (redirectTo : String) (message : String) (category : String)
  | allowed (r : ρ)
deriving DecidableEq, Repr

/-- Model of `admin_required` (src/app.py:365-372): the handler `f` runs on the
application state `s` only when the principal is authenticated (`some`) with
role `'admin'`; otherwise the gate flashes and redirects to the dashboard
without touching the state. -/
def admin_required {σ ρ : Type} (f : σ → σ × ρ) (user : Option Principal) (s : σ) :
    σ × GateResult ρ :=
  match user with
  | some u =>
    if u.nivel_acesso = "admin" then ((f s).1, .allowed (f s).2)
    else (s, .denied ("dashboard") ("Acesso restrito a administradores.") ("danger"))
  | none => (s, .denied ("dashboard") ("Acesso restrito a administradores.") ("danger"))

/-- Model of `supervisor_required` (src/app.py:374-381): allow-list
`['admin', 'supervisor']`. -/
def supervisor_required {σ ρ : Type} (f : σ → σ × ρ) (user : Option Principal) (s : σ) :
    σ × GateResult ρ :=
  match user with
  | some u =>
    if u.nivel_acesso = "admin" ∨ u.nivel_acesso = "supervisor" then
      ((f s).1, .allowed (f s).2)
    else (s, .denied ("dashboard") ("Acesso restrito a supervisores e administradores.") ("danger"))
  | none => (s, .denied ("dashboard") ("Acesso restrito a supervisores e administradores.") ("danger"))

/-- A Python value reaching a report cell via `getattr` (src/app.py:1323):
`None`, a string, a boolean, a `date`, a `datetime` or a `time` column. -/
inductive PyValue where
  | none
  | str (s : String)
  | bool (b : Bool)
  | date (d : PyDate)
  | datetime (d : PyDate) (t : PyTime)
  | time (t : PyTime)
deriving DecidableEq, Repr

/-- The cell-rendering chain of the custom report (src/app.py:1325-1332):
None becomes the empty string, booleans the fixed Sim/Não tokens, dates and
datetimes strftime %d/%m/%Y, times strftime %H:%M, strings pass through. -/
def formatCell : PyValue → String
  | .none => ""
  | .str s => s
  | .bool b => if b then "Sim" else "Não"
  | .date d => pad2 d.day ++ "/" ++ pad2 d.month ++ "/" ++ pad4 d.year
  | .datetime d _ => pad2 d.day ++ "/" ++ pad2 d.month ++ "/" ++ pad4 d.year
  | .time t => pad2 t.hour ++ ":" ++ pad2 t.minute

/-- The `csv` module's quote escaping: each `"` inside a quoted field is
doubled. -/
def escapeQuotes (s : String) : String :=
  String.mk (s.data.foldr (fun c acc => if c = '"' then '"' :: '"' :: acc else c :: acc) [])

/-- One field under `csv.QUOTE_ALL`. -/
def quoteAllField (s : String) : String :=
  "\"" ++ escapeQuotes s ++ "\""

/-- Model of `writer.writerow` with `delimiter=';', quoting=csv.QUOTE_ALL`
(src/app.py:1315): fields joined by the delimiter, row terminated CRLF. -/
def writeRowQuoteAll (fields : List String) : String :=
  String.intercalate (";") (fields.map quoteAllField) ++ "\r\n"

/-- One field under the default `csv.QUOTE_MINIMAL`: quoted only when it
contains the delimiter, a quote or a line break. -/
def minimalField (s : String) : String :=
  if s.data.any (fun c => c = ';' ∨ c = '"' ∨ c = '\n' ∨ c = '\r') then quoteAllField s else s

/-- Model of `writer.writerow` with `delimiter=';'` and default quoting
(src/app.py:1250). -/
def writeRowMinimal (fields : List String) : String :=
  String.intercalate (";") (fields.map minimalField) ++ "\r\n"

/-- The custom report CSV body (src/app.py:1313-1335): the UTF-8 BOM, the
header row, then one row per selected record with every cell passed through
`formatCell`. -/
def relatorios_csv (header : List String) (rows : List (List PyValue)) : String :=
  "\uFEFF" ++ writeRowQuoteAll header ++
    String.join (rows.map (fun r => writeRowQuoteAll (r.map formatCell)))

/-- Model of `exportar_colaboradores_csv` (src/app.py:1244-1256): BOM, fixed header,
one semicolon-delimited row per record (`csv` renders a NULL matrícula as
the empty string). -/
def exportar_colaboradores_csv (db : List Colab) : String :=
  "\uFEFF" ++
    writeRowMinimal
      ["Matrícula", "Nome", "CPF", "Vínculo", "Status", "Departamento", "Email Principal"] ++
    String.join (db.map (fun c =>
      writeRowMinimal [c.matricula.getD (""), c.nome_completo, c.cpf, c.tipo_vinculo,
        c.status, c.departamento, c.email_institucional]))

/-- A row of the `usuarios` table, restricted to the columns
`excluir_usuario` reads. -/
structure UserRow where
  id : Nat
  username : String
  nome_completo : String
deriving DecidableEq, Repr

/-- An audit row written by `registrar_log`, restricted to action, module
and detail. -/
structure LogEntry where
  acao : String
  modulo : String
  detalhes : String
deriving DecidableEq, Repr

/-- Response of the delete-user route. -/
inductive ExcluirUsuarioResp where
  | selfDeleteError
  | notFound
  | deleted
deriving DecidableEq, Repr

/-- Model of `excluir_usuario` (src/app.py:1572-1599): refuse self-deletion before
loading the target, 404 on a missing id, otherwise hard-delete the row and
append the audit entry. -/
def excluir_usuario (currentUserId targetId : Nat) (usuarios : List UserRow)
    (logs : List LogEntry) : ExcluirUsuarioResp × List UserRow × List LogEntry :=
  if targetId = currentUserId then (.selfDeleteError, usuarios, logs)
  else
    match usuarios.find? (fun u => u.id == targetId) with
    | none => (.notFound, usuarios, logs)
    | some u =>
      (.deleted, usuarios.filter (fun v => v.id != targetId),
        logs ++ [⟨"Excluiu usuário " ++ u.username, "Usuários",
          "ID: " ++ toString targetId ++ ", Nome: " ++ u.nome_completo⟩])

/-- The canonical stored form of a national ID: the image under
`formatar_cpf` of some 11-digit sequence, still checksum-valid. -/
def isCanonicalCpf (s : String) : Prop :=
  ∃ ds : List Char, ds.length = 11 ∧ (∀ c ∈ ds, c.isDigit = true) ∧
    s = String.mk (fmtCpfL ds) ∧ validar_cpf s = true

/-- A concrete staged session (all required fields present, checksum-valid
national ID) used to exercise the finalize pipeline on closed inputs. -/
def sessExemplo : Session where
  passo1 := some
    { nome_completo := "Ana Silva", nome_social := "", cpf := "529.982.247-25",
      rg := "", data_nascimento := "" }
  passo2 := some
    { email_institucional := "ana@nev.usp.br", celular := "11987654321", whatsapp := false,
      cep := "", endereco := "", numero := "", bairro := "", cidade := "", estado := "" }
  passo3 := some
    { tipo_vinculo := "Bolsista", departamento := "", lotacao := "",
      data_ingresso := "2024-01-15", dias_presenciais := "" }
  passo4 := none
  passo5 := none

theorem mem_pyDigits {s : String} {c : Char} (h : c ∈ pyDigits s) : c.isDigit = true :=
  List.of_mem_filter h

theorem filter_digits_id (l : List Char) (h : ∀ c ∈ l, c.isDigit = true) :
    l.filter Char.isDigit = l :=
  List.filter_eq_self.mpr h

theorem pyDigits_mk (l : List Char) : pyDigits (String.mk l) = l.filter Char.isDigit :=
  rfl

theorem pyDigits_fmtCpfL (ds : List Char) (h : ∀ c ∈ ds, c.isDigit = true) :
    pyDigits (String.mk (fmtCpfL ds)) = ds := by
  have hdot : ('.').isDigit = false := rfl
  have hdash : ('-').isDigit = false := rfl
  rw [pyDigits_mk]
  unfold fmtCpfL
  rw [List.filter_append, List.filter_cons, List.filter_append, List.filter_cons,
    List.filter_append, List.filter_cons, hdot, hdash]
  simp only [Bool.false_eq_true, if_false]
  rw [filter_digits_id _ (fun c hc => h c (List.take_subset _ _ hc)),
    filter_digits_id _ (fun c hc => h c (List.drop_subset _ _ (List.take_subset _ _ hc))),
    filter_digits_id _ (fun c hc => h c (List.drop_subset _ _ (List.take_subset _ _ hc))),
    filter_digits_id _ (fun c hc => h c (List.drop_subset _ _ hc))]
  have e1 : (ds.drop 6).take 3 ++ ds.drop 9 = ds.drop 6 := by
    have h' := List.take_append_drop 3 (ds.drop 6)
    rwa [List.drop_drop] at h'
  have e2 : (ds.drop 3).take 3 ++ ds.drop 6 = ds.drop 3 := by
    have h' := List.take_append_drop 3 (ds.drop 3)
    rwa [List.drop_drop] at h'
  rw [e1, e2, List.take_append_drop]

/-- C7: `formatar_cpf` is a left-inverse of digit extraction: stripping the
non-digit characters from its output returns exactly the digits of the
input, in order; and when the input's digit count is not 11 the function
returns precisely the stripped digit sequence. -/
theorem formatar_cpf_left_inverse (s : String) :
    pyDigits (formatar_cpf s) = pyDigits s ∧
    ((pyDigits s).length ≠ 11 → formatar_cpf s = String.mk (pyDigits s)) ∧
    ((pyDigits s).length = 11 → formatar_cpf s = String.mk (fmtCpfL (pyDigits s))) := by
  refine ⟨?_, ?_, ?_⟩
  · by_cases h : (pyDigits s).length = 11
    · simp only [formatar_cpf, h, if_pos]
      exact pyDigits_fmtCpfL _ (fun c hc => mem_pyDigits hc)
    · simp only [formatar_cpf, h, if_false]
      rw [pyDigits_mk, filter_digits_id _ (fun c hc => mem_pyDigits hc)]
  · intro h
    simp only [formatar_cpf, h, if_false]
  · intro h
    simp only [formatar_cpf, h, if_pos]

theorem formatar_cpf_left_inverse_witness :
    pyDigits (formatar_cpf ("529.982.247-25")) = pyDigits ("529.982.247-25") ∧
    formatar_cpf ("12 34") = String.mk (pyDigits ("12 34")) :=
  ⟨(formatar_cpf_left_inverse ("529.982.247-25")).1,
   (formatar_cpf_left_inverse ("12 34")).2.1 (by decide)⟩

/-- C1: on any input whose digit-stripped form has exactly 11 digits that
are not all identical, `validar_cpf` accepts iff, for both check positions
i ∈ {9, 10}, the digit at position i equals
((Σ k < i, digit k * ((i+1) - k)) * 10 mod 11) mod 10 — weights 10..2 for
the first check digit and 11..2 for the second; any input whose digit
count differs from 11, or whose digits are all identical, is rejected. -/
theorem validar_cpf_spec (s : String) :
    ((pyDigits s).length = 11 →
      ¬ (∀ c ∈ pyDigits s, c = (pyDigits s).headD '0') →
      (validar_cpf s = true ↔
        (digitVal ((pyDigits s).getD 9 '0') =
          (((List.range 9).map
              (fun k => digitVal ((pyDigits s).getD k '0') * (10 - k))).sum * 10 % 11) % 10 ∧
         digitVal ((pyDigits s).getD 10 '0') =
          (((List.range 10).map
              (fun k => digitVal ((pyDigits s).getD k '0') * (11 - k))).sum * 10 % 11) % 10))) ∧
    ((pyDigits s).length ≠ 11 ∨ (∀ c ∈ pyDigits s, c = (pyDigits s).headD '0') →
      validar_cpf s = false) := by
  constructor
  · intro hlen hall
    have hrep : ¬ (pyDigits s = List.replicate 11 ((pyDigits s).headD '0')) := by
      intro h
      exact hall (fun c hc => List.eq_of_mem_replicate (h ▸ hc))
    simp only [validar_cpf, hlen, ne_eq, not_true_eq_false, if_false, if_neg hrep,
      cpfCheckDigit, Bool.and_eq_true, beq_iff_eq]
    constructor
    · rintro ⟨h9, h10⟩
      exact ⟨h9.symm, h10.symm⟩
    · rintro ⟨h9, h10⟩
      exact ⟨h9.symm, h10.symm⟩
  · intro h
    rcases h with h | h
    · simp only [validar_cpf, ne_eq, h, not_false_eq_true, if_true]
    · by_cases hlen : (pyDigits s).length = 11
      · have hrep : pyDigits s = List.replicate 11 ((pyDigits s).headD '0') :=
          List.eq_replicate_iff.mpr ⟨hlen, h⟩
        simp only [validar_cpf, hlen, ne_eq, not_true_eq_false, if_false, if_pos hrep]
      · simp only [validar_cpf, ne_eq, hlen, not_false_eq_true, if_true]

theorem validar_cpf_spec_witness :
    validar_cpf ("529.982.247-25") = true ∧ validar_cpf ("111.111.111-11") = false :=
  ⟨((validar_cpf_spec ("529.982.247-25")).1 (by decide) (by decide)).mpr (by decide),
   (validar_cpf_spec ("111.111.111-11")).2 (Or.inr (by decide))⟩

/-- C10: `formatar_telefone` maps the falsy inputs None and the empty
string to the empty string (not to the input itself), and returns every
other input whose digit count is neither 10 nor 11 unchanged — the
original string, not its stripped digits. -/
theorem formatar_telefone_spec :
    formatar_telefone none = "" ∧ formatar_telefone (some ("")) = "" ∧
    ∀ s : String, s ≠ "" → (pyDigits s).length ≠ 10 → (pyDigits s).length ≠ 11 →
      formatar_telefone (some s) = s := by
  refine ⟨rfl, rfl, ?_⟩
  intro s hs h10 h11
  simp only [formatar_telefone, hs, if_false, h10, h11, if_neg]

theorem formatar_telefone_spec_witness :
    formatar_telefone (some ("abc")) = "abc" :=
  formatar_telefone_spec.2.2 ("abc") (by decide) (by decide) (by decide)

/-- C6: both CSV exports start with the UTF-8 byte-order mark and join
fields with the ';' delimiter; in the custom report every field is quoted,
and cells render as the empty string for None, the fixed tokens Sim/Não
for booleans (never raw True/False), DD/MM/YYYY for dates and datetimes
and HH:MM for times. -/
theorem csv_export_spec :
    (∀ db : List Colab, (exportar_colaboradores_csv db).data.head? = some '\uFEFF') ∧
    (∀ (header : List String) (rows : List (List PyValue)),
      (relatorios_csv header rows).data.head? = some '\uFEFF') ∧
    (∀ fields : List String,
      writeRowQuoteAll fields =
        String.intercalate (";") (fields.map (fun f => "\"" ++ escapeQuotes f ++ "\"")) ++ "\r\n") ∧
    formatCell PyValue.none = "" ∧
    (∀ b, formatCell (PyValue.bool b) = if b then "Sim" else "Não") ∧
    (∀ d, formatCell (PyValue.date d) = pad2 d.day ++ "/" ++ pad2 d.month ++ "/" ++ pad4 d.year) ∧
    (∀ d t, formatCell (PyValue.datetime d t) =
      pad2 d.day ++ "/" ++ pad2 d.month ++ "/" ++ pad4 d.year) ∧
    (∀ t, formatCell (PyValue.time t) = pad2 t.hour ++ ":" ++ pad2 t.minute) := by
  refine ⟨?_, ?_, fun _ => rfl, rfl, fun _ => rfl, fun _ => rfl, fun _ _ => rfl, fun _ => rfl⟩
  · intro db
    simp [exportar_colaboradores_csv, String.data_append]
  · intro header rows
    simp [relatorios_csv, String.data_append]

/-- C5: an authenticated principal whose role is outside the decorator's
allow-list gets a flashed redirect to the dashboard; the wrapped handler
`f` is never invoked and the application state is returned untouched, so
none of the handler's side effects (audit log writes included) occur. -/
theorem access_gate_spec (σ ρ : Type) (f : σ → σ × ρ) (u : Principal) (s : σ) :
    (u.nivel_acesso ≠ "admin" →
      admin_required f (some u) s =
        (s, GateResult.denied ("dashboard") ("Acesso restrito a administradores.") ("danger"))) ∧
    (u.nivel_acesso ≠ "admin" ∧ u.nivel_acesso ≠ "supervisor" →
      supervisor_required f (some u) s =
        (s, GateResult.denied ("dashboard")
          ("Acesso restrito a supervisores e administradores.") ("danger"))) := by
  constructor
  · intro h
    simp [admin_required, h]
  · rintro ⟨h1, h2⟩
    simp [supervisor_required, h1, h2]

theorem access_gate_spec_witness :
    admin_required (fun logs : List Nat => (logs ++ [7], 0)) (some ⟨"colaborador"⟩) [] =
      ([], GateResult.denied ("dashboard") ("Acesso restrito a administradores.") ("danger")) ∧
    supervisor_required (fun logs : List Nat => (logs ++ [7], 0)) (some ⟨"colaborador"⟩) [] =
      ([], GateResult.denied ("dashboard")
        ("Acesso restrito a supervisores e administradores.") ("danger")) :=
  ⟨(access_gate_spec (List Nat) Nat (fun logs => (logs ++ [7], 0)) ⟨"colaborador"⟩ []).1
      (by decide),
   (access_gate_spec (List Nat) Nat (fun logs => (logs ++ [7], 0)) ⟨"colaborador"⟩ []).2
      ⟨by decide, by decide⟩⟩

/-- C9: deleting a user refuses self-deletion — with the target equal to
the authenticated user the store and the audit log are returned untouched
(whether or not the id exists, since the check precedes the load); for any
other existing id the row is removed and one audit entry is appended. -/
theorem excluir_usuario_spec (cur : Nat) (db : List UserRow) (logs : List LogEntry) :
    excluir_usuario cur cur db logs = (.selfDeleteError, db, logs) ∧
    (∀ tid u, tid ≠ cur → db.find? (fun v => v.id == tid) = some u →
      excluir_usuario cur tid db logs =
        (.deleted, db.filter (fun v => v.id != tid),
          logs ++ [⟨"Excluiu usuário " ++ u.username, "Usuários",
            "ID: " ++ toString tid ++ ", Nome: " ++ u.nome_completo⟩]) ∧
      u ∉ db.filter (fun v => v.id != tid)) := by
  constructor
  · simp [excluir_usuario]
  · intro tid u hne hfind
    have hid : u.id = tid := by
      have := List.find?_some hfind
      simpa using this
    refine ⟨?_, ?_⟩
    · simp [excluir_usuario, hne, hfind]
    · intro hmem
      have := List.of_mem_filter hmem
      simp [hid] at this

theorem excluir_usuario_spec_witness :
    excluir_usuario 1 1 [⟨1, "a", "A"⟩, ⟨2, "b", "B"⟩] [] =
      (.selfDeleteError, [⟨1, "a", "A"⟩, ⟨2, "b", "B"⟩], []) ∧
    excluir_usuario 1 2 [⟨1, "a", "A"⟩, ⟨2, "b", "B"⟩] [] =
      (.deleted, [⟨1, "a", "A"⟩],
        [⟨"Excluiu usuário " ++ "b", "Usuários", "ID: " ++ toString 2 ++ ", Nome: " ++ "B"⟩]) ∧
    (⟨2, "b", "B"⟩ : UserRow) ∉ ([⟨1, "a", "A"⟩, ⟨2, "b", "B"⟩] : List UserRow).filter
      (fun v => v.id != 2) := by
  refine ⟨(excluir_usuario_spec 1 [⟨1, "a", "A"⟩, ⟨2, "b", "B"⟩] []).1, ?_⟩
  have h := (excluir_usuario_spec 1 [⟨1, "a", "A"⟩, ⟨2, "b", "B"⟩] []).2 2 ⟨2, "b", "B"⟩
    (by decide) (by decide)
  exact ⟨by rw [h.1]; decide, h.2⟩

theorem foldl_pickNewer_keep (l : List Colab) (u : Colab)
    (h : ∀ v ∈ l, v.id ≤ u.id) : l.foldl pickNewer (some u) = some u := by
  induction l generalizing u with
  | nil => rfl
  | cons v t ih =>
    have hv : ¬ u.id < v.id := Nat.not_lt.mpr (h v (List.mem_cons_self v t))
    show t.foldl pickNewer (pickNewer (some u) v) = some u
    have hstep : pickNewer (some u) v = some u := by
      simp [pickNewer, hv]
    rw [hstep]
    exact ih u (fun w hw => h w (List.mem_cons_of_mem v hw))

theorem foldl_pickNewer_max (l : List Colab) (u : Colab) :
    u ∈ l → (∀ v ∈ l, v ≠ u → v.id < u.id) →
    ∀ acc : Option Colab, (acc = none ∨ ∃ a, acc = some a ∧ a.id < u.id) →
      l.foldl pickNewer acc = some u := by
  induction l with
  | nil => intro hu; exact absurd hu (List.not_mem_nil u)
  | cons v t ih =>
    intro hu hmax acc hacc
    show t.foldl pickNewer (pickNewer acc v) = some u
    by_cases hv : v = u
    · subst hv
      have hstep : pickNewer acc v = some v := by
        rcases hacc with rfl | ⟨a, rfl, ha⟩
        · rfl
        · simp [pickNewer, ha]
      rw [hstep]
      apply foldl_pickNewer_keep
      intro w hw
      by_cases hwv : w = v
      · exact hwv ▸ Nat.le_refl _
      · exact Nat.le_of_lt (hmax w (List.mem_cons_of_mem v hw) hwv)
    · have hu' : u ∈ t := by
        rcases List.mem_cons.mp hu with h | h
        · exact absurd h.symm hv
        · exact h
      have hvlt : v.id < u.id := hmax v (List.mem_cons_self v t) hv
      apply ih hu' (fun w hw hwu => hmax w (List.mem_cons_of_mem v hw) hwu)
      rcases hacc with rfl | ⟨a, rfl, ha⟩
      · exact Or.inr ⟨v, rfl, hvlt⟩
      · by_cases hc : a.id < v.id
        · refine Or.inr ⟨v, ?_, hvlt⟩
          simp [pickNewer, hc]
        · refine Or.inr ⟨a, ?_, ha⟩
          simp [pickNewer, hc]

theorem ultimoMatch_eq (ano : Nat) (db : List Colab) (u : Colab)
    (hu : u ∈ db) (hm : matchesAno ano u = true)
    (hmax : ∀ v ∈ db, matchesAno ano v = true → v ≠ u → v.id < u.id) :
    ultimoMatch ano db = some u := by
  apply foldl_pickNewer_max
  · exact List.mem_filter.mpr ⟨hu, hm⟩
  · intro v hv hvu
    have h' := List.mem_filter.mp hv
    exact hmax v h'.1 h'.2 hvu
  · exact Or.inl rfl

theorem matricula_matching_ne_empty (ano : Nat) (u : Colab) (m : String)
    (hm : u.matricula = some m) (h : matchesAno ano u = true) : m ≠ "" := by
  intro he
  subst he
  simp only [matchesAno, hm] at h
  have hfalse : (("NEV" ++ toString ano).data).isPrefixOf (("").data) = false := by
    rw [String.data_append]
    rfl
  rw [hfalse] at h
  exact Bool.false_ne_true h

/-- C4: with the query succeeding, `gerar_matricula` takes the row with
the greatest internal id among matrículas with prefix NEV(year), parses
the suffix from character index 7 on, increments and zero-pads to four
digits; with no matching row it yields suffix 0001; and on a query failure
or a suffix parse failure it falls back to NEV(year) followed by the
timestamp mod 1000, zero-padded to four digits. -/
theorem gerar_matricula_spec (ano ts : Nat) (db : List Colab) :
    ((∀ c ∈ db, matchesAno ano c = false) →
      gerarMatricula ano db true ts = "NEV" ++ toString ano ++ pad4 1) ∧
    (∀ u ∈ db, matchesAno ano u = true →
      (∀ v ∈ db, matchesAno ano v = true → v ≠ u → v.id < u.id) →
      ∀ m, u.matricula = some m →
        (∀ n, parseDigits (m.drop 7) = some n →
          gerarMatricula ano db true ts = "NEV" ++ toString ano ++ pad4 (n + 1)) ∧
        (parseDigits (m.drop 7) = none →
          gerarMatricula ano db true ts = "NEV" ++ toString ano ++ pad4 (ts % 1000))) ∧
    gerarMatricula ano db false ts = "NEV" ++ toString ano ++ pad4 (ts % 1000) := by
  refine ⟨?_, ?_, rfl⟩
  · intro hnone
    have hfilter : db.filter (matchesAno ano) = [] := by
      apply List.filter_eq_nil_iff.mpr
      intro c hc
      simp [hnone c hc]
    have hultimo : ultimoMatch ano db = none := by
      unfold ultimoMatch
      rw [hfilter]
      rfl
    simp [gerarMatricula, hultimo]
  · intro u hu hm hmax m hmatr
    have hultimo := ultimoMatch_eq ano db u hu hm hmax
    have hne := matricula_matching_ne_empty ano u m hmatr hm
    constructor
    · intro n hparse
      simp [gerarMatricula, hultimo, hmatr, hne, hparse]
    · intro hparse
      simp [gerarMatricula, hultimo, hmatr, hne, hparse]

theorem gerar_matricula_spec_witness :
    gerarMatricula 2025 [⟨1, some ("NEV20250007"), "", "", "", "", "", "", "", none, none, 0⟩]
        true 0 = "NEV" ++ toString 2025 ++ pad4 (7 + 1) ∧
    gerarMatricula 2025 [] true 0 = "NEV" ++ toString 2025 ++ pad4 1 :=
  ⟨((gerar_matricula_spec 2025 0
        [⟨1, some ("NEV20250007"), "", "", "", "", "", "", "", none, none, 0⟩]).2.1
      ⟨1, some ("NEV20250007"), "", "", "", "", "", "", "", none, none, 0⟩
      (by decide) (by decide) (by intro v hv h1 h2; simp at hv; exact absurd hv h2)
      ("NEV20250007") (by decide)).1 7 (by decide),
   (gerar_matricula_spec 2025 0 []).1 (by intro c hc; exact absurd hc (List.not_mem_nil c))⟩

theorem formatar_cpf_len11 (s : String) (h : (pyDigits s).length = 11) :
    formatar_cpf s = String.mk (fmtCpfL (pyDigits s)) := by
  simp only [formatar_cpf, h, if_pos]

theorem formatar_cpf_not11 (s : String) (h : (pyDigits s).length ≠ 11) :
    formatar_cpf s = String.mk (pyDigits s) := by
  simp only [formatar_cpf, h, if_false]

theorem pyDigits_formatar (s : String) : pyDigits (formatar_cpf s) = pyDigits s := by
  by_cases h : (pyDigits s).length = 11
  · rw [formatar_cpf_len11 s h]
    exact pyDigits_fmtCpfL _ (fun c hc => mem_pyDigits hc)
  · rw [formatar_cpf_not11 s h, pyDigits_mk,
      filter_digits_id _ (fun c hc => mem_pyDigits hc)]

theorem canonical_of_validar_format (r : String)
    (h : validar_cpf (formatar_cpf r) = true) : isCanonicalCpf (formatar_cpf r) := by
  by_cases hlen : (pyDigits r).length = 11
  · exact ⟨pyDigits r, hlen, fun c hc => mem_pyDigits hc, formatar_cpf_len11 r hlen, h⟩
  · exfalso
    have hd : pyDigits (formatar_cpf r) = pyDigits r := pyDigits_formatar r
    have hfalse : validar_cpf (formatar_cpf r) = false := by
      simp only [validar_cpf, hd, hlen, ne_eq, not_false_eq_true, if_true]
    rw [h] at hfalse
    simp at hfalse

theorem fmtCpfL_length (ds : List Char) (h : ds.length = 11) :
    (fmtCpfL ds).length = 14 := by
  simp only [fmtCpfL, List.length_append, List.length_cons, List.length_take,
    List.length_drop, h]
  omega

theorem canonical_cpf_length (s : String) (h : isCanonicalCpf s) : s.length = 14 := by
  obtain ⟨ds, h11, _, rfl, _⟩ := h
  show (fmtCpfL ds).length = 14
  exact fmtCpfL_length ds h11

theorem finalizar_cases (sess : Session) (db : List Colab) (exc : Option String)
    (ano ts : Nat) (q : Bool) (uid newId : Nat) :
    (∃ code msg, finalizar_cadastro sess db exc ano ts q uid newId =
        ⟨.err code msg, db, sess⟩) ∨
    (∃ novo : Colab, finalizar_cadastro sess db exc ano ts q uid newId =
        ⟨.ok newId, db ++ [novo], clearedSession⟩ ∧
      novo.cpf = formatar_cpf (pyStrip (mergeSession sess).cpf) ∧
      validar_cpf novo.cpf = true ∧ exc = none ∧ validationsOk sess db = true) := by
  simp only [finalizar_cadastro]
  split
  · exact Or.inl ⟨_, _, rfl⟩
  next h1 =>
    split
    · exact Or.inl ⟨_, _, rfl⟩
    next h2 =>
      split
      · exact Or.inl ⟨_, _, rfl⟩
      next h3 =>
        split
        · exact Or.inl ⟨_, _, rfl⟩
        next h4 =>
          split
          · exact Or.inl ⟨_, _, rfl⟩
          next h5 =>
            split
            · exact Or.inl ⟨_, _, rfl⟩
            next h6 =>
              split
              · exact Or.inl ⟨_, _, rfl⟩
              next h7 =>
                split
                next hp => exact Or.inl ⟨_, _, rfl⟩
                next di hp =>
                  cases exc with
                  | some e => exact Or.inl ⟨_, _, rfl⟩
                  | none =>
                    refine Or.inr ⟨_, rfl, rfl, not_not.mp (by simpa using h1), rfl, ?_⟩
                    simp only [validationsOk, Bool.and_eq_true]
                    refine ⟨⟨⟨⟨⟨⟨⟨not_not.mp (by simpa using h1), ?_⟩, ?_⟩, ?_⟩, ?_⟩, ?_⟩,
                      ?_⟩, ?_⟩
                    · simp only [Bool.not_eq_true']
                      exact Bool.not_eq_true _ |>.mp h2
                    · simp only [Bool.not_eq_true', beq_eq_false_iff_ne, ne_eq]
                      exact h3
                    · simp only [Bool.not_eq_true', beq_eq_false_iff_ne, ne_eq]
                      exact h4
                    · simp only [Bool.not_eq_true', beq_eq_false_iff_ne, ne_eq]
                      exact h5
                    · simp only [Bool.not_eq_true', beq_eq_false_iff_ne, ne_eq]
                      exact h6
                    · simp only [Bool.not_eq_true', beq_eq_false_iff_ne, ne_eq]
                      exact h7
                    · simp [hp]

theorem finalizar_dup (sess : Session) (db : List Colab) (exc : Option String)
    (ano ts : Nat) (q : Bool) (uid newId : Nat)
    (hv : validar_cpf (formatar_cpf (pyStrip (mergeSession sess).cpf)) = true)
    (hdup : db.any (fun c => c.cpf == formatar_cpf (pyStrip (mergeSession sess).cpf)) = true) :
    finalizar_cadastro sess db exc ano ts q uid newId =
      ⟨.err 400 ("Erro: Este CPF já está cadastrado no sistema."), db, sess⟩ := by
  simp only [finalizar_cadastro]
  rw [if_neg (by simp [hv]), if_pos hdup]

theorem finalizar_not_dup (sess : Session) (db : List Colab) (exc : Option String)
    (ano ts : Nat) (q : Bool) (uid newId : Nat)
    (hv : validar_cpf (formatar_cpf (pyStrip (mergeSession sess).cpf)) = true)
    (hdup : db.any (fun c => c.cpf == formatar_cpf (pyStrip (mergeSession sess).cpf)) = false) :
    (finalizar_cadastro sess db exc ano ts q uid newId).resp ≠
      .err 400 ("Erro: Este CPF já está cadastrado no sistema.") := by
  simp only [finalizar_cadastro]
  rw [if_neg (by simp [hv]), if_neg (by simp [hdup])]
  split
  · simp
  split
  · simp
  split
  · simp
  split
  · simp
  split
  · simp
  split
  · simp
  split
  · simp
  split
  · simp
  simp

theorem fallback_cases (d : FormData) (db : List Colab) (exc : Option String)
    (ano ts : Nat) (q : Bool) (uid newId : Nat) :
    (∃ msg, cadastro_fallback d db exc ano ts q uid newId = (.formError msg, db)) ∨
    (∃ novo : Colab, cadastro_fallback d db exc ano ts q uid newId =
        (.created newId, db ++ [novo]) ∧
      novo.cpf = formatar_cpf (pyStrip d.cpf) ∧ validar_cpf novo.cpf = true ∧ exc = none) := by
  simp only [cadastro_fallback]
  split
  · exact Or.inl ⟨_, rfl⟩
  next h0 =>
    split
    · exact Or.inl ⟨_, rfl⟩
    next h1 =>
      split
      · exact Or.inl ⟨_, rfl⟩
      next h2 =>
        split
        · exact Or.inl ⟨_, rfl⟩
        next h3 =>
          split
          next hp => exact Or.inl ⟨_, rfl⟩
          next di hp =>
            cases exc with
            | some e => exact Or.inl ⟨_, rfl⟩
            | none => exact Or.inr ⟨_, rfl, rfl, not_not.mp (by simpa using h1), rfl⟩

/-- C3: when every validation has passed, an exception in the insert phase
of wizard finalize rolls the transaction back (the table is unchanged),
answers a success-false HTTP 500 response, and leaves all five staged
session entries untouched; the staged entries are cleared only on the
successful-commit path. -/
theorem finalize_rollback_spec (sess : Session) (db : List Colab) (e : String)
    (ano ts : Nat) (q : Bool) (uid newId : Nat) :
    (validationsOk sess db = true →
      finalizar_cadastro sess db (some e) ano ts q uid newId =
        ⟨.err 500 ("Erro ao processar cadastro: " ++ e), db, sess⟩) ∧
    (∀ exc, (finalizar_cadastro sess db exc ano ts q uid newId).sess ≠ sess →
      exc = none ∧
      (finalizar_cadastro sess db exc ano ts q uid newId).sess = clearedSession ∧
      ∃ m, (finalizar_cadastro sess db exc ano ts q uid newId).resp = .ok m) := by
  constructor
  · intro h
    simp only [validationsOk, Bool.and_eq_true, Bool.not_eq_true', beq_eq_false_iff_ne,
      ne_eq, Option.isSome_iff_exists] at h
    obtain ⟨⟨⟨⟨⟨⟨⟨hv, hd⟩, h3⟩, h4⟩, h5⟩, h6⟩, h7⟩, di, hdi⟩ := h
    simp only [finalizar_cadastro]
    rw [if_neg (by simp [hv]), if_neg (by simp [hd]), if_neg h3, if_neg h4, if_neg h5,
      if_neg h6, if_neg h7, hdi]
  · intro exc hne
    rcases finalizar_cases sess db exc ano ts q uid newId with
      ⟨code, msg, heq⟩ | ⟨novo, heq, _, _, hexc, _⟩
    · rw [heq] at hne
      simp at hne
    · rw [heq]
      exact ⟨hexc, rfl, newId, rfl⟩

theorem finalize_rollback_spec_witness :
    finalizar_cadastro sessExemplo [] (some ("falha de conexão")) 2025 0 true 1 1 =
      ⟨.err 500 ("Erro ao processar cadastro: " ++ "falha de conexão"), [], sessExemplo⟩ :=
  (finalize_rollback_spec sessExemplo [] ("falha de conexão") 2025 0 true 1 1).1 (by decide)

/-- C2: once the submitted national ID passes the checksum, wizard finalize
answers the uniqueness rejection — success false, table and staged session
unchanged — exactly when some record with that formatted ID already sits in
the store (records are only ever soft-deleted, so every stored row is a
non-deleted one); in particular a second submission of the same ID against
the store produced by a successful first submission is rejected with the
uniqueness message and inserts no second row. -/
theorem finalize_duplicate_spec (sess : Session) (db : List Colab) (exc : Option String)
    (ano ts : Nat) (q : Bool) (uid newId : Nat) :
    (validar_cpf (formatar_cpf (pyStrip (mergeSession sess).cpf)) = true →
      (db.any (fun c => c.cpf == formatar_cpf (pyStrip (mergeSession sess).cpf)) = true ↔
        finalizar_cadastro sess db exc ano ts q uid newId =
          ⟨.err 400 ("Erro: Este CPF já está cadastrado no sistema."), db, sess⟩)) ∧
    (∀ m, (finalizar_cadastro sess db exc ano ts q uid newId).resp = .ok m →
      ∀ (sess2 : Session) (exc2 : Option String) (ano2 ts2 : Nat) (q2 : Bool)
        (uid2 newId2 : Nat),
        formatar_cpf (pyStrip (mergeSession sess2).cpf) =
          formatar_cpf (pyStrip (mergeSession sess).cpf) →
        finalizar_cadastro sess2 (finalizar_cadastro sess db exc ano ts q uid newId).db
            exc2 ano2 ts2 q2 uid2 newId2 =
          ⟨.err 400 ("Erro: Este CPF já está cadastrado no sistema."),
            (finalizar_cadastro sess db exc ano ts q uid newId).db, sess2⟩) := by
  constructor
  · intro hv
    constructor
    · intro hdup
      exact finalizar_dup sess db exc ano ts q uid newId hv hdup
    · intro heq
      by_contra hany
      have hfalse : db.any (fun c => c.cpf == formatar_cpf (pyStrip (mergeSession sess).cpf))
          = false := by
        revert hany
        cases db.any (fun c => c.cpf == formatar_cpf (pyStrip (mergeSession sess).cpf)) <;>
          simp
      exact finalizar_not_dup sess db exc ano ts q uid newId hv hfalse (by rw [heq])
  · intro m hok sess2 exc2 ano2 ts2 q2 uid2 newId2 hcpf2
    rcases finalizar_cases sess db exc ano ts q uid newId with
      ⟨code, msg, heq⟩ | ⟨novo, heq, hcpf, hval, _, _⟩
    · rw [heq] at hok
      simp at hok
    · have hv2 : validar_cpf (formatar_cpf (pyStrip (mergeSession sess2).cpf)) = true := by
        rw [hcpf2, ← hcpf]
        exact hval
      have hdup2 : ((finalizar_cadastro sess db exc ano ts q uid newId).db).any
          (fun c => c.cpf == formatar_cpf (pyStrip (mergeSession sess2).cpf)) = true := by
        rw [heq]
        simp [List.any_append, hcpf2, hcpf]
      exact finalizar_dup sess2 ((finalizar_cadastro sess db exc ano ts q uid newId).db)
        exc2 ano2 ts2 q2 uid2 newId2 hv2 hdup2

theorem finalize_duplicate_spec_witness :
    finalizar_cadastro sessExemplo
        ((finalizar_cadastro sessExemplo [] none 2025 0 true 1 1).db) none 2025 7 true 1 2 =
      ⟨.err 400 ("Erro: Este CPF já está cadastrado no sistema."),
        (finalizar_cadastro sessExemplo [] none 2025 0 true 1 1).db, sessExemplo⟩ :=
  (finalize_duplicate_spec sessExemplo [] none 2025 0 true 1 1).2 1 (by decide)
    sessExemplo none 2025 7 true 1 2 rfl

/-- C8: every row committed through wizard finalize or the non-AJAX
fallback form carries a national ID in the canonical form produced by
`formatar_cpf` on a checksum-valid 11-digit input, and the edit handler
preserves that invariant; a canonical ID is exactly the 14-character
XXX.XXX.XXX-XX rendering, so the duplicate check — issued on the formatted
value — compares like with like. -/
theorem stored_cpf_canonical :
    (∀ (sess : Session) (db : List Colab) (exc : Option String) (ano ts : Nat) (q : Bool)
        (uid newId : Nat) (row : Colab),
        row ∈ (finalizar_cadastro sess db exc ano ts q uid newId).db →
        row ∈ db ∨ isCanonicalCpf row.cpf) ∧
    (∀ (d : FormData) (db : List Colab) (exc : Option String) (ano ts : Nat) (q : Bool)
        (uid newId : Nat) (row : Colab),
        row ∈ (cadastro_fallback d db exc ano ts q uid newId).2 →
        row ∈ db ∨ isCanonicalCpf row.cpf) ∧
    (∀ (cpfForm : String) (colab : Colab) (db : List Colab) (novo : String),
        editar_cpf cpfForm colab db = .ok novo →
        isCanonicalCpf colab.cpf → isCanonicalCpf novo) ∧
    (∀ s : String, isCanonicalCpf s → s.length = 14) := by
  refine ⟨?_, ?_, ?_, canonical_cpf_length⟩
  · intro sess db exc ano ts q uid newId row hmem
    rcases finalizar_cases sess db exc ano ts q uid newId with
      ⟨code, msg, heq⟩ | ⟨novo, heq, hcpf, hval, _, _⟩
    · rw [heq] at hmem
      exact Or.inl hmem
    · rw [heq] at hmem
      simp only [List.mem_append, List.mem_singleton] at hmem
      rcases hmem with hmem | rfl
      · exact Or.inl hmem
      · refine Or.inr ?_
        rw [hcpf]
        apply canonical_of_validar_format
        rw [← hcpf]
        exact hval
  · intro d db exc ano ts q uid newId row hmem
    rcases fallback_cases d db exc ano ts q uid newId with
      ⟨msg, heq⟩ | ⟨novo, heq, hcpf, hval, _⟩
    · rw [heq] at hmem
      exact Or.inl hmem
    · rw [heq] at hmem
      simp only [List.mem_append, List.mem_singleton] at hmem
      rcases hmem with hmem | rfl
      · exact Or.inl hmem
      · refine Or.inr ?_
        rw [hcpf]
        apply canonical_of_validar_format
        rw [← hcpf]
        exact hval
  · intro cpfForm colab db novo hok hcanon
    simp only [editar_cpf] at hok
    split at hok
    · cases hok
      exact hcanon
    · split at hok
      · cases hok
        exact hcanon
      · split at hok
        · cases hok
        next h =>
          cases hok
          have hv : validar_cpf (formatar_cpf (pyStrip cpfForm)) = true := by
            simp only [Bool.or_eq_true, not_or, Bool.not_eq_true', Bool.not_eq_false] at h
            exact h.1
          exact canonical_of_validar_format _ hv

theorem stored_cpf_canonical_witness :
    (⟨1, some ("NEV20250001"), "529.982.247-25", "Ativo", "Ana Silva", "ana@nev.usp.br",
        "(11) 98765-4321", "Bolsista", "", some ⟨2024, 1, 15⟩, none, 1⟩ : Colab) ∈
        ([] : List Colab) ∨
      isCanonicalCpf (Colab.cpf ⟨1, some ("NEV20250001"), "529.982.247-25", "Ativo",
        "Ana Silva", "ana@nev.usp.br", "(11) 98765-4321", "Bolsista", "",
        some ⟨2024, 1, 15⟩, none, 1⟩) :=
  stored_cpf_canonical.1 sessExemplo [] none 2025 0 true 1 1
    ⟨1, some ("NEV20250001"), "529.982.247-25", "Ativo", "Ana Silva", "ana@nev.usp.br",
      "(11) 98765-4321", "Bolsista", "", some ⟨2024, 1, 15⟩, none, 1⟩ (by decide)
